import Mathlib

/-!
Verification of the MCP tool-provider client layer of this repository
(directories src/mcp_integration and src/tools), shallowly embedded in Lean.

Conventions of the embedding:
* Python dicts of JSON-like data are association lists of type
  List (String × JValue); dict.get is lookupK.
* A Python function that may raise is embedded as returning Except (or
  Option when the possible exception is an unmodelled crash such as calling
  a string method on a non-string value).
* Floating point delays are modelled as exact rationals; every delay value
  exercised by the development (powers of 2, 1.0, 60.0, ...) is exactly
  representable in binary floating point, so the rational computation agrees
  with the float computation of the source on them.
* Async functions are embedded as pure functions of the outcomes of their
  awaited sub-operations: e.g. the operation retried by retry_async is a
  function from the attempt number to its result on that attempt.
-/

/-- JSON-like Python values (contents of config dicts and schemas). -/
inductive JValue where
  | null : JValue
  | bool : Bool → JValue
  | int : Int → JValue
  | float : ℚ → JValue
  | str : String → JValue
  | list : List JValue → JValue
  | obj : List (String × JValue) → JValue

/-- Embeds `d.get(k)` on a Python dict: first binding of key `k`, if any. -/
def lookupK (kvs : List (String × JValue)) (k : String) : Option JValue :=
  (kvs.find? (fun p => p.1 == k)).map (fun p => p.2)

/-- Python truthiness of a `JValue` (what `if value:` tests). -/
def jTruthy : JValue → Bool
  | .null => false
  | .bool b => b
  | .int n => n != 0
  | .float x => x != 0
  | .str s => s ≠ ""
  | .list xs => !xs.isEmpty
  | .obj kvs => !kvs.isEmpty

/-- The single-quote character, used by the error messages of the source. -/
def apos : String := String.singleton (Char.ofNat 39)

/-- Render `s` wrapped in single quotes, as the f-strings of the source do. -/
def q (s : String) : String := apos ++ s ++ apos

/-! ## Retry / backoff engine — src/src/mcp_integration/retry.py -/

/-- Embeds class `RetryConfig` of retry.py, with its `__init__` defaults.
Delays are exact rationals. -/
structure RetryConfig where
  max_attempts : ℕ := 3
  base_delay : ℚ := 1
  max_delay : ℚ := 60
  exponential_base : ℚ := 2
  jitter : Bool := true
deriving DecidableEq, Repr

/-- What a run of `retry_async` produced: `success` is a normal return,
`failure e` is the re-raised last exception, `bug` is the unreachable
trailing RuntimeError (hit only when the attempt loop runs zero times). -/
inductive RetryOutcome (A E : Type) where
  | success : A → RetryOutcome A E
  | failure : E → RetryOutcome A E
  | bug : RetryOutcome A E
deriving DecidableEq, Repr

/-- Observable trace of a `retry_async` run: how many times `func` was
invoked, the argument of each `asyncio.sleep` in order, and the outcome. -/
structure RetryTrace (A E : Type) where
  calls : ℕ
  sleeps : List ℚ
  result : RetryOutcome A E
deriving DecidableEq, Repr

/-- The attempt loop of `retry_async` (retry.py, lines 67-103), iterating
`for attempt in range(1, max_attempts + 1)`. Here `f n` is the outcome of
the n-th call of `func`; `cb` is the optional `on_retry` callback, returning
`Except.error` when the callback itself raises (the source wraps the call in
a try block whose except clause is `pass`, so both branches continue
identically); `rand n` is the value `random.random()` drawn before the n-th
sleep when `jitter` is set. Recursion is on the number of remaining loop
iterations. -/
def retry_go {A E : Type} (cfg : RetryConfig) (f : ℕ → Except E A)
    (cb : Option (ℕ → E → ℚ → Except Unit Unit)) (rand : ℕ → ℚ) :
    ℕ → ℕ → List ℚ → RetryTrace A E
  | attempt, 0, sleeps =>
      -- loop exhausted without returning: only reachable with zero iterations
      { calls := attempt - 1, sleeps := sleeps.reverse, result := .bug }
  | attempt, r + 1, sleeps =>
      match f attempt with
      | .ok a => { calls := attempt, sleeps := sleeps.reverse, result := .success a }
      | .error e =>
          if attempt ≥ cfg.max_attempts then
            -- last attempt failed: bare raise re-raises e unmodified
            { calls := attempt, sleeps := sleeps.reverse, result := .failure e }
          else
            let delay0 : ℚ :=
              min (cfg.base_delay * cfg.exponential_base ^ (attempt - 1)) cfg.max_delay
            let delay : ℚ :=
              if cfg.jitter then delay0 * (1/2 + rand attempt * (1/2)) else delay0
            match cb with
            | some g =>
                -- callback call wrapped in try / except Exception: pass
                match g attempt e delay with
                | .ok _ => retry_go cfg f cb rand (attempt + 1) r (delay :: sleeps)
                | .error _ => retry_go cfg f cb rand (attempt + 1) r (delay :: sleeps)
            | none =>
                -- default print-logging branch
                retry_go cfg f cb rand (attempt + 1) r (delay :: sleeps)

/-- Embeds `retry_async(func, config, exceptions, on_retry)` with every
raised error assumed to be of a caught class (the clients pass a catch-all
tuple containing Exception). -/
def retry_async {A E : Type} (cfg : RetryConfig) (f : ℕ → Except E A)
    (cb : Option (ℕ → E → ℚ → Except Unit Unit)) (rand : ℕ → ℚ) : RetryTrace A E :=
  retry_go cfg f cb rand 1 cfg.max_attempts []

/-- The backoff delay the source computes after the n-th failed attempt
(without jitter): min of base_delay times exponential_base to the n-1 and
max_delay. -/
def attemptDelay (cfg : RetryConfig) (n : ℕ) : ℚ :=
  min (cfg.base_delay * cfg.exponential_base ^ (n - 1)) cfg.max_delay

/-! ## Configuration validation and client factory —
src/src/mcp_integration/factory.py -/

/-- Embeds Python `str.lower()` as a character-wise ASCII lowercase map
(every transport tag handled by the factory is ASCII). -/
def py_lower (s : String) : String := String.mk (s.data.map Char.toLower)

/-- Embeds `config.get("type", "stdio").lower()`; the value `none` models
the AttributeError raised when the type value is not a string. -/
def client_type_of (kvs : List (String × JValue)) : Option String :=
  match lookupK kvs "type" with
  | none => some "stdio"
  | some (.str s) => some (py_lower s)
  | some _ => none

/-- The `supported_types` list of `validate_config`. -/
def supported_types : List String :=
  ["stdio", "sse", "streamable_http", "streamable-http", "http",
   "websocket", "ws", "wss", "multi"]

/-- Message stating that transport `t` requires field `f` (an f-string in
the source, with `f` wrapped in single quotes). -/
def requiresMsg (t f : String) : String :=
  t ++ " config requires " ++ q f ++ " field"

/-- Rendering of a `JValue` into a Python f-string (scalars only; the
rendering of containers is never exercised by a validation message because a
sub-server name used in one is a scalar in every modelled run). -/
def py_str : JValue → String
  | .null => "None"
  | .bool true => "True"
  | .bool false => "False"
  | .int n => toString n
  | .float x => toString x
  | .str s => s
  | .list _ => "<list>"
  | .obj _ => "<dict>"

/-- Embeds `server_config.get("name", i)` rendered into the nested error
message of the multi branch. -/
def py_name (skvs : List (String × JValue)) (i : ℕ) : String :=
  match lookupK skvs "name" with
  | some v => py_str v
  | none => toString i

mutual

/-- Embeds `validate_config(config)` (factory.py lines 65-131). The argument
is the whole config value; a non-dict argument models the Python crash on
`.get`, yielding `none`. The result `some (ok, msg)` is the returned pair;
`none` models an uncaught exception inside `validate_config` (a string
method invoked on a non-string value, or the membership test / recursion on
a non-dict sub-server entry). -/
def validate_config : JValue → Option (Bool × String)
  | .obj kvs =>
      match client_type_of kvs with
      | none => none
      | some t =>
          if ¬ supported_types.contains t then
            -- the source renders the supported set via Python set iteration,
            -- whose order is an implementation detail; fixed here
            some (false, "Unsupported type: " ++ q t ++
              ". Supported: stdio, streamable_http, sse, websocket, multi")
          else if t = "stdio" then
            match lookupK kvs "command" with
            | none => some (false, requiresMsg "stdio" "command")
            | some _ =>
                match lookupK kvs "args" with
                | none => some (false, requiresMsg "stdio" "args")
                | some (.list _) => some (true, "")
                | some _ => some (false, q "args" ++ " must be a list")
          else if t = "sse" then
            match lookupK kvs "url" with
            | none => some (false, requiresMsg "sse" "url")
            | some (.str u) =>
                if u.startsWith "http://" ∨ u.startsWith "https://" then
                  some (true, "")
                else some (false, q "url" ++ " must start with http:// or https://")
            | some _ => none
          else if t = "streamable_http" ∨ t = "streamable-http" ∨ t = "http" then
            match lookupK kvs "url" with
            | none => some (false, requiresMsg "streamable_http" "url")
            | some (.str u) =>
                if u.startsWith "http://" ∨ u.startsWith "https://" then
                  some (true, "")
                else some (false, q "url" ++ " must start with http:// or https://")
            | some _ => none
          else if t = "websocket" ∨ t = "ws" ∨ t = "wss" then
            match lookupK kvs "url" with
            | none => some (false, requiresMsg "websocket" "url")
            | some (.str u) =>
                if u.startsWith "ws://" ∨ u.startsWith "wss://" then
                  some (true, "")
                else some (false, q "url" ++ " must start with ws:// or wss://")
            | some _ => none
          else if t = "multi" then
            match hs : lookupK kvs "servers" with
            | none => some (false, requiresMsg "multi" "servers")
            | some (.list xs) =>
                if xs.isEmpty then
                  some (false, q "servers" ++ " list cannot be empty")
                else validate_servers 0 xs
            | some _ => some (false, q "servers" ++ " must be a list")
          else
            some (true, "")
  | _ => none
termination_by v => sizeOf v
decreasing_by
  have key : ∀ (l : List (String × JValue)) (v : JValue),
      lookupK l "servers" = some v → sizeOf v < sizeOf l := by
    intro l v h
    induction l with
    | nil => simp [lookupK] at h
    | cons p rest ih =>
        unfold lookupK at h ih
        rw [List.find?] at h
        cases hp : (p.1 == "servers") with
        | true =>
            rw [hp] at h
            simp at h
            subst h
            rcases p with ⟨a, b⟩
            simp
            omega
        | false =>
            rw [hp] at h
            have := ih h
            rcases p with ⟨a, b⟩
            simp
            omega
  have h1 := key _ _ hs
  simp at h1 ⊢
  omega

/-- The loop `for i, server_config in enumerate(config["servers"])` of the
multi branch of `validate_config`, together with the final success return. -/
def validate_servers : ℕ → List JValue → Option (Bool × String)
  | _, [] => some (true, "")
  | i, x :: rest =>
      match x with
      | .obj skvs =>
          if (lookupK skvs "name").isNone then
            some (false, "Server " ++ toString i ++ " missing " ++ q "name" ++ " field")
          else
            match validate_config (.obj skvs) with
            | none => none
            | some (true, _) => validate_servers (i + 1) rest
            | some (false, err) =>
                some (false, "Server " ++ q (py_name skvs i) ++ ": " ++ err)
      | _ => none
termination_by _ xs => sizeOf xs
decreasing_by
  all_goals simp
  all_goals omega

end

/-- The concrete client class chosen by the factory. -/
inductive ClientKind where
  | stdio
  | sse
  | streamable_http
  | websocket
  | multi
deriving DecidableEq, Repr

/-- Embeds `create_mcp_client(server_name, config)` (factory.py lines
13-62): the returned value is which client class was constructed, the
`Except.error` carries the ValueError message raised on an unknown type,
and `none` again models the crash on a non-string type value. Selecting
`sse` additionally prints a deprecation warning (not modelled). -/
def create_mcp_client (kvs : List (String × JValue)) : Option (Except String ClientKind) :=
  match client_type_of kvs with
  | none => none
  | some t =>
      if t = "stdio" then some (.ok .stdio)
      else if t = "sse" then some (.ok .sse)
      else if t = "streamable_http" ∨ t = "http" ∨ t = "streamable-http" then
        some (.ok .streamable_http)
      else if t = "websocket" ∨ t = "ws" ∨ t = "wss" then some (.ok .websocket)
      else if t = "multi" then some (.ok .multi)
      else
        some (.error ("Unknown MCP client type: " ++ q t ++
          ". Supported types: stdio, streamable_http (recommended), sse (deprecated), websocket, multi"))

/-! ## Multi-server aggregator — src/src/mcp_integration/multi_server_client.py -/

/-- One entry of the `servers` list as the aggregator sees it. `name` is
the value of `server_config.get("name")` (names are strings in every config
this repository ships; a missing key is `none`). `connect_result` is the
combined outcome of `create_mcp_client` plus `connect_with_retry()` /
`connect()` for this sub-server: `Except.ok` carries the discovered tools
(abstract identifiers), `Except.error` stands for any exception raised while
creating or connecting, which the per-server handler catches. -/
structure SubServer where
  name : Option String
  connect_result : Except Unit (List String)

/-- Embeds the Python truthiness test `if not sub_server_name:` — a missing
name and an empty-string name are both skipped. -/
def sub_named (s : SubServer) : Option String :=
  match s.name with
  | none => none
  | some n => if n = "" then none else some n

/-- Key update of a Python dict: an existing key keeps its position, a new
key is appended. Only the key set matters for the aggregate state. -/
def dict_insert_key (k : String) (ks : List String) : List String :=
  if ks.contains k then ks else ks ++ [k]

/-- Decide whether an `Except` is a success. -/
def except_ok {ε α : Type} : Except ε α → Bool
  | .ok _ => true
  | .error _ => false

/-- A sub-server that was attempted and connected. -/
def sub_ok (s : SubServer) : Bool :=
  (sub_named s).isSome && except_ok s.connect_result

/-- A sub-server that was attempted and failed to connect. -/
def sub_failed (s : SubServer) : Bool :=
  (sub_named s).isSome && !except_ok s.connect_result

/-- The tools a sub-server contributed (empty on failure). -/
def tools_of (s : SubServer) : List String :=
  match s.connect_result with
  | .ok ts => ts
  | .error _ => []

/-- The `for server_config in self.servers:` loop of
`MultiServerMCPClient.connect` (multi_server_client.py lines 36-62):
accumulates `self.sub_clients` keys and `all_tools`; a nameless entry is
skipped, a failing entry is caught, logged and skipped. -/
def multi_connect_go : List SubServer → List String → List String → List String × List String
  | [], clients, tools => (clients, tools)
  | s :: rest, clients, tools =>
      match sub_named s with
      | none => multi_connect_go rest clients tools
      | some n =>
          match s.connect_result with
          | .ok ts => multi_connect_go rest (dict_insert_key n clients) (tools ++ ts)
          | .error _ => multi_connect_go rest clients tools

/-- The aggregate connection state `connect()` leaves behind. -/
structure MultiConnectResult where
  sub_clients : List String
  tools : List String
  is_connected : Bool
deriving DecidableEq, Repr

/-- Embeds `MultiServerMCPClient.connect` on a freshly constructed client
(`__init__` leaves `sub_clients` empty). The outer try/except re-raises
only when the loop machinery itself raises, which the embedding shows
cannot happen: the result is always `Except.ok`. -/
def multi_connect (servers : List SubServer) : Except Unit MultiConnectResult :=
  let r := multi_connect_go servers [] []
  .ok { sub_clients := r.1, tools := r.2, is_connected := decide (0 < r.1.length) }

/-! ## close() of the transport clients — src/src/mcp_integration/stdio.py
and src/src/mcp_integration/websocket.py -/

/-- An open context manager (the stdio or session context); `exit_raises`
records whether awaiting its `__aexit__` raises. -/
structure Ctx where
  exit_raises : Bool
deriving DecidableEq, Repr

/-- Awaiting `__aexit__(None, None, None)` on a context. -/
def aexit (c : Ctx) : Except Unit Unit :=
  if c.exit_raises then .error () else .ok ()

/-- The mutable connection state shared by `StdioMCPClient` and
`WebSocketMCPClient` that `close()` reads and writes (`_is_connected`,
`_session_context`, `_client_context`, `session`). It covers every
lifecycle stage: never connected (all cleared), mid-connect (contexts set,
not yet connected), connected, and failed. -/
structure ConnState where
  is_connected : Bool
  session_ctx : Option Ctx
  client_ctx : Option Ctx
  session : Option Unit
deriving DecidableEq, Repr

/-- Embeds `StdioMCPClient.close` (stdio.py lines 89-119): early return
when already closed, then each `__aexit__` wrapped in try/except with a
finally clearing the context; any exception is swallowed. -/
def stdio_close (s : ConnState) : Except Unit ConnState :=
  if s.is_connected = false ∧ s.session_ctx = none ∧ s.client_ctx = none then
    .ok s
  else
    let s1 :=
      match s.session_ctx with
      | none => s
      | some c =>
          match aexit c with
          | .ok _ => { s with session_ctx := none }
          | .error _ => { s with session_ctx := none }
    let s2 :=
      match s1.client_ctx with
      | none => s1
      | some c =>
          match aexit c with
          | .ok _ => { s1 with client_ctx := none }
          | .error _ => { s1 with client_ctx := none }
    .ok { s2 with is_connected := false, session := none }

/-- Embeds `WebSocketMCPClient.close` (websocket.py lines 83-102): same
structure without the early return; exceptions are logged and swallowed. -/
def ws_close (s : ConnState) : Except Unit ConnState :=
  let s1 :=
    match s.session_ctx with
    | none => s
    | some c =>
        match aexit c with
        | .ok _ => { s with session_ctx := none }
        | .error _ => { s with session_ctx := none }
  let s2 :=
    match s1.client_ctx with
    | none => s1
    | some c =>
        match aexit c with
        | .ok _ => { s1 with client_ctx := none }
        | .error _ => { s1 with client_ctx := none }
  .ok { s2 with is_connected := false, session := none }

/-! ## Teardown loops — `MultiServerMCPClient.close` (multi_server_client.py
lines 76-86) and `ToolLoader.cleanup` (src/src/tools/loader.py lines
449-461). Each owned client is a name paired with whether awaiting its
`close()` raises. -/

/-- Awaiting `client.close()`. -/
def client_close (raises : Bool) : Except Unit Unit :=
  if raises then .error () else .ok ()

/-- The shared `for name, client in ...: try: await client.close() ...
except Exception: log` loop; returns the names whose close was awaited, in
order. Both branches of the per-client try/except continue the loop. -/
def close_all_go : List (String × Bool) → List String → List String
  | [], attempted => attempted.reverse
  | (n, b) :: rest, attempted =>
      match client_close b with
      | .ok _ => close_all_go rest (n :: attempted)
      | .error _ => close_all_go rest (n :: attempted)

/-- State after a teardown loop: the closes attempted, the connection map
afterwards, and (for the aggregator) the connected flag. -/
structure CloseAllResult where
  attempted : List String
  remaining : List (String × Bool)
  is_connected : Bool
deriving DecidableEq, Repr

/-- Embeds `MultiServerMCPClient.close`: loop over `sub_clients`, then
`sub_clients.clear()`, `_is_connected = False`, `session = None`. -/
def multi_close (clients : List (String × Bool)) : Except Unit CloseAllResult :=
  .ok { attempted := close_all_go clients [], remaining := [], is_connected := false }

/-- Embeds `ToolLoader.cleanup`: loop over `mcp_clients`, then
`mcp_clients.clear()`. -/
def loader_cleanup (clients : List (String × Bool)) :
    Except Unit (List String × List (String × Bool)) :=
  .ok (close_all_go clients [], [])

/-! ## Schema translator defaults — src/mcp_integration/tools/base.py
(MCPTool.to_langchain_tool, MCPTool._get_default_value) and
src/src/mcp_integration/improved_adapter.py
(ImprovedMCPTool._schema_field_to_pydantic, _get_default_for_type).
A property schema is the dict under one name of `properties`. -/

/-- Embeds `prop_schema.get("type", "string")`. -/
def json_type_of (pschema : List (String × JValue)) : JValue :=
  (lookupK pschema "type").getD (.str "string")

/-- Embeds static `MCPTool._get_default_value(json_type)` (base.py lines
187-197): a dict lookup keyed on the JSON type name, defaulting to None. -/
def get_default_value : JValue → JValue
  | .str "string" => .str ""
  | .str "integer" => .int 0
  | .str "number" => .float 0
  | .str "boolean" => .bool false
  | .str "array" => .list []
  | .str "object" => .obj []
  | _ => .null

/-- Embeds `ImprovedMCPTool._get_default_for_type` (improved_adapter.py
lines 178-188): same table plus an explicit "null" → None entry. -/
def get_default_for_type : JValue → JValue
  | .str "string" => .str ""
  | .str "integer" => .int 0
  | .str "number" => .float 0
  | .str "boolean" => .bool false
  | .str "array" => .list []
  | .str "object" => .obj []
  | .str "null" => .null
  | _ => .null

/-- The default `MCPTool.to_langchain_tool` attaches to an optional field:
`default_val = self._get_default_value(json_type)` — computed from the
declared type only, never reading an `enum` or `default` key. -/
def base_optional_default (pschema : List (String × JValue)) : JValue :=
  get_default_value (json_type_of pschema)

/-- The default `ImprovedMCPTool._schema_field_to_pydantic` attaches:
`default = schema.get("default", self._get_default_for_type(json_type))`,
then, when a (truthy, i.e. non-empty) `enum` list is present and the field
is optional, `default = default or enum_values[0]`. A non-list truthy enum
value does not occur in this repository (subscripting it would raise or
pick a character). -/
def improved_default (pschema : List (String × JValue)) (required : Bool) : JValue :=
  let d0 := (lookupK pschema "default").getD (get_default_for_type (json_type_of pschema))
  match lookupK pschema "enum" with
  | some (.list (v :: _)) =>
      if required then d0
      else if jTruthy d0 then d0 else v
  | _ => d0

/-- Embeds the argument handling of the wrapped tool produced by
`MCPTool.to_langchain_tool`: the Pydantic `InputModel` validates the
supplied kwargs — a missing required field raises a ValidationError
(embedded as `Except.error` naming the field), a missing optional field is
filled with its declared default — and `tool_wrapper(**kwargs)` forwards
the validated kwargs to `self.execute`. The returned list is exactly the
kwargs `execute` receives for the declared properties. -/
def fill_args : List (String × List (String × JValue)) → List String →
    List (String × JValue) → Except String (List (String × JValue))
  | [], _, _ => .ok []
  | (nm, ps) :: rest, required, args =>
      match lookupK args nm with
      | some v => (fill_args rest required args).map (fun r => (nm, v) :: r)
      | none =>
          if required.contains nm then .error nm
          else (fill_args rest required args).map
            (fun r => (nm, base_optional_default ps) :: r)

/-! ## Dynamic loader — src/src/tools/loader.py -/

/-- What the provider branch selected for one enabled entry of the `tools:`
section produced: a list of tools (`mcp_client` and the multi-tool internal
case), one tool (the single internal case), nothing (a None return, an
unknown provider, or an empty list), or an exception — which the per-entry
`except Exception: ... continue` handler of `_load_tools_async` catches. -/
inductive LoadOutcome where
  | tools : List String → LoadOutcome
  | one : String → LoadOutcome
  | nothing : LoadOutcome
  | raised : LoadOutcome

/-- One entry of the `tools:` section: `enabled` is
`tool_config.get("enabled", True)`; `outcome` abstracts the resolved
provider branch. -/
structure ToolEntry where
  enabled : Bool
  outcome : LoadOutcome

/-- Embeds the entry loop of `ToolLoader._load_tools_async` (loader.py
lines 150-196): disabled entries are skipped, truthy results are
accumulated, a raising entry is logged and skipped. The `multi_servers:`
suite loop below it (lines 199-210) has the same per-suite try/except
shape. The function is total: no entry outcome propagates an exception. -/
def load_tools_entries : List ToolEntry → List String
  | [] => []
  | e :: rest =>
      if ¬ e.enabled then load_tools_entries rest
      else
        match e.outcome with
        | .tools ts => ts ++ load_tools_entries rest
        | .one t => t :: load_tools_entries rest
        | .nothing => load_tools_entries rest
        | .raised => load_tools_entries rest

/-- The tools one entry contributes to the final list. -/
def entry_tools (e : ToolEntry) : List String :=
  if e.enabled then
    match e.outcome with
    | .tools ts => ts
    | .one t => [t]
    | .nothing => []
    | .raised => []
  else []

/-- Where `_load_mcp_client_tool` found its server config: a named
descriptor file absent from the registry, a config loaded from a present
descriptor file, or the inline `mcp_config` value (possibly empty — the
`or {}` default). -/
inductive McpConfigSource where
  | file_missing : McpConfigSource
  | file_config : List (String × JValue) → McpConfigSource
  | inline_config : List (String × JValue) → McpConfigSource

/-- Embeds the global-settings merge of `_load_mcp_client_tool` (loader.py
lines 365-368): each global key is added only when the config does not
already carry it. -/
def merge_globals (kvs gs : List (String × JValue)) : List (String × JValue) :=
  gs.foldl (fun acc kv => if (lookupK acc kv.1).isSome then acc else acc ++ [kv]) kvs

/-- Embeds `ToolLoader._load_mcp_client_tool` (loader.py lines 329-400)
after config resolution: a missing descriptor file and a falsy inline
config return `[]`; otherwise global settings are merged, the config is
validated (an invalid config returns `[]`, an exception inside
`validate_config` propagates), and the create-plus-connect outcome
`connect_result` either contributes its tools or, on an exception, is
caught and `[]` is returned. -/
def load_mcp_client_tool (src : McpConfigSource) (gs : List (String × JValue))
    (connect_result : Except Unit (List String)) : Except Unit (List String) :=
  match src with
  | .file_missing => .ok []
  | .file_config kvs =>
      match validate_config (.obj (merge_globals kvs gs)) with
      | none => .error ()
      | some (false, _) => .ok []
      | some (true, _) =>
          match connect_result with
          | .ok ts => .ok ts
          | .error _ => .ok []
  | .inline_config kvs =>
      if kvs.isEmpty then .ok []
      else
        match validate_config (.obj (merge_globals kvs gs)) with
        | none => .error ()
        | some (false, _) => .ok []
        | some (true, _) =>
            match connect_result with
            | .ok ts => .ok ts
            | .error _ => .ok []

/-- Acceptance of a config by `validate_config`: the returned flag is True. -/
def config_accepted (v : JValue) : Prop :=
  ∃ m, validate_config v = some (true, m)

/-! # Theorems -/

theorem retry_go_all_fail {A E : Type} (cfg : RetryConfig) (f : ℕ → Except E A)
    (cb : Option (ℕ → E → ℚ → Except Unit Unit)) (rand : ℕ → ℚ) (err : ℕ → E)
    (hj : cfg.jitter = false) (hf : ∀ n, f n = Except.error (err n)) :
    ∀ (s a : ℕ) (sleeps : List ℚ), a + s = cfg.max_attempts →
      retry_go cfg f cb rand a (s + 1) sleeps =
        { calls := cfg.max_attempts,
          sleeps := sleeps.reverse ++ (List.range' a s).map (attemptDelay cfg),
          result := .failure (err cfg.max_attempts) } := by
  intro s
  induction s with
  | zero =>
      intro a sleeps ha
      have haa : a = cfg.max_attempts := by omega
      subst haa
      simp [retry_go, hf, List.range']
  | succ t ih =>
      intro a sleeps ha
      have hlt : ¬ a ≥ cfg.max_attempts := by omega
      rw [retry_go, hf a]
      simp only [hlt, if_false, hj, Bool.false_eq_true, reduceIte]
      rw [show min (cfg.base_delay * cfg.exponential_base ^ (a - 1)) cfg.max_delay =
            attemptDelay cfg a from rfl]
      have hrec := ih (a + 1) (attemptDelay cfg a :: sleeps) (by omega)
      have key : retry_go cfg f cb rand (a + 1) (t + 1) (attemptDelay cfg a :: sleeps) =
          { calls := cfg.max_attempts,
            sleeps := sleeps.reverse ++ (List.range' a (t + 1)).map (attemptDelay cfg),
            result := .failure (err cfg.max_attempts) } := by
        rw [hrec]
        simp [List.range'_succ]
      rw [key]
      repeat' split
      all_goals rfl

/-- C1: with jitter disabled and an operation that raises a retryable error
on every call, `retry_async` invokes the operation exactly `max_attempts`
times, sleeps `min (base_delay * exponential_base ^ (n-1)) max_delay` after
the n-th failure for every n below `max_attempts`, and re-raises the error
of the final attempt unmodified. -/
theorem retry_async_exhausts_attempts {A E : Type} (cfg : RetryConfig)
    (f : ℕ → Except E A) (cb : Option (ℕ → E → ℚ → Except Unit Unit))
    (rand : ℕ → ℚ) (err : ℕ → E)
    (hj : cfg.jitter = false) (hm : 1 ≤ cfg.max_attempts)
    (hf : ∀ n, f n = Except.error (err n)) :
    retry_async cfg f cb rand =
      { calls := cfg.max_attempts,
        sleeps := (List.range' 1 (cfg.max_attempts - 1)).map (attemptDelay cfg),
        result := .failure (err cfg.max_attempts) } := by
  unfold retry_async
  obtain ⟨k, hk⟩ : ∃ k, cfg.max_attempts = k + 1 := ⟨cfg.max_attempts - 1, by omega⟩
  have h := retry_go_all_fail cfg f cb rand err hj hf k 1 [] (by omega)
  conv_lhs => rw [hk]
  rw [h]
  have h2 : cfg.max_attempts - 1 = k := by omega
  rw [h2]
  simp

/-- C1 witness: the concrete policy of the claim — 3 attempts, base delay
1.0, exponential base 2.0, jitter off — on an always-failing operation
makes exactly 3 calls, sleeps [1.0, 2.0], and re-raises the last error. -/
theorem retry_async_exhausts_attempts_witness :
    retry_async (A := Unit) (E := ℕ)
        { max_attempts := 3, base_delay := 1, max_delay := 60,
          exponential_base := 2, jitter := false }
        (fun n => Except.error n) none (fun _ => 0) =
      { calls := 3, sleeps := [1, 2], result := .failure 3 } := by
  rw [retry_async_exhausts_attempts _ _ _ _ (fun n => n) rfl (by decide) (fun n => rfl)]
  simp [attemptDelay, List.range']
  norm_num

theorem retry_go_cb_independent {A E : Type} (cfg : RetryConfig)
    (f : ℕ → Except E A) (rand : ℕ → ℚ)
    (cb cb' : Option (ℕ → E → ℚ → Except Unit Unit)) :
    ∀ (r a : ℕ) (sleeps : List ℚ),
      retry_go cfg f cb rand a r sleeps = retry_go cfg f cb' rand a r sleeps := by
  intro r
  induction r with
  | zero => intro a sleeps; rfl
  | succ t ih =>
      intro a sleeps
      rw [retry_go, retry_go]
      cases f a with
      | ok v => rfl
      | error e =>
          by_cases hge : a ≥ cfg.max_attempts
          · simp [hge]
          · simp only [hge, if_false, reduceIte]
            repeat' split
            all_goals exact ih _ _

/-- C8: the observer callback cannot change the behaviour of the retry
loop: the full trace (number of attempts, every sleep, and the final result
or re-raised error) is the same for any two callbacks, in particular for a
callback that raises on every invocation and one that never raises. -/
theorem retry_async_callback_irrelevant {A E : Type} (cfg : RetryConfig)
    (f : ℕ → Except E A) (g g' : ℕ → E → ℚ → Except Unit Unit) (rand : ℕ → ℚ) :
    retry_async cfg f (some g) rand = retry_async cfg f (some g') rand := by
  unfold retry_async
  exact retry_go_cb_independent cfg f rand (some g) (some g') cfg.max_attempts 1 []

theorem stdio_close_closed (s : ConnState) :
    ∃ t, stdio_close s = .ok t ∧ t.is_connected = false ∧
      t.session_ctx = none ∧ t.client_ctx = none := by
  unfold stdio_close
  split
  · next h => exact ⟨s, rfl, h.1, h.2.1, h.2.2⟩
  · refine ⟨_, rfl, ?_, ?_, ?_⟩ <;> (repeat' split) <;> simp_all

theorem ws_close_closed (s : ConnState) :
    ∃ t, ws_close s = .ok t ∧ t.is_connected = false ∧
      t.session_ctx = none ∧ t.client_ctx = none := by
  unfold ws_close
  refine ⟨_, rfl, ?_, ?_, ?_⟩ <;> (repeat' split) <;> simp_all

/-- C4: on any connection state — never connected, mid-connect, connected,
or failed, with contexts whose aexit may or may not raise — calling close
twice raises no exception (both calls return ok) and leaves the connected
flag false, for both the stdio client and the WebSocket client. -/
theorem close_twice_safe (s : ConnState) :
    ∃ s₁ s₂ t₁ t₂,
      stdio_close s = .ok s₁ ∧ stdio_close s₁ = .ok s₂ ∧ s₂.is_connected = false ∧
      ws_close s = .ok t₁ ∧ ws_close t₁ = .ok t₂ ∧ t₂.is_connected = false := by
  obtain ⟨s₁, h1, h1c, h1s, h1cl⟩ := stdio_close_closed s
  obtain ⟨t₁, g1, g1c, g1s, g1cl⟩ := ws_close_closed s
  obtain ⟨t₂, g2, g2c, -, -⟩ := ws_close_closed t₁
  have h2 : stdio_close s₁ = .ok s₁ := by
    unfold stdio_close
    rw [if_pos ⟨h1c, h1s, h1cl⟩]
  exact ⟨s₁, s₁, t₁, t₂, h1, h2, h1c, g1, g2, g2c⟩

theorem close_all_go_spec (clients : List (String × Bool)) :
    ∀ acc, close_all_go clients acc = acc.reverse ++ clients.map Prod.fst := by
  induction clients with
  | nil => intro acc; simp [close_all_go]
  | cons p rest ih =>
      intro acc
      rcases p with ⟨n, b⟩
      cases b <;> simp [close_all_go, client_close, ih]

/-- C9: the aggregator close and the loader cleanup await close on every
owned connection — including the ones whose close raises, and the ones
after a raising one — propagate no close exception (the overall result is
ok), and leave the owning connection map empty with the aggregate
connected flag false. -/
theorem teardown_tolerates_close_failures (clients : List (String × Bool)) :
    multi_close clients =
      .ok { attempted := clients.map Prod.fst, remaining := [], is_connected := false } ∧
    loader_cleanup clients = .ok (clients.map Prod.fst, []) := by
  constructor <;> simp [multi_close, loader_cleanup, close_all_go_spec]

theorem dict_insert_key_ne_nil (k : String) (ks : List String) :
    dict_insert_key k ks ≠ [] := by
  unfold dict_insert_key
  split
  · intro h
    subst h
    simp_all
  · simp

theorem multi_connect_go_spec (servers : List SubServer) :
    ∀ (clients tools : List String),
      (multi_connect_go servers clients tools).2 =
        tools ++ ((servers.filter (fun s => sub_ok s)).map tools_of).flatten ∧
      ((multi_connect_go servers clients tools).1 = [] ↔
        clients = [] ∧ ∀ s ∈ servers, sub_ok s = false) := by
  induction servers with
  | nil => intro clients tools; simp [multi_connect_go]
  | cons s rest ih =>
      intro clients tools
      rw [multi_connect_go]
      cases hn : sub_named s with
      | none =>
          have hok : sub_ok s = false := by simp [sub_ok, hn]
          constructor
          · rw [(ih clients tools).1]
            simp [hok]
          · rw [(ih clients tools).2]
            simp [hok]
      | some n =>
          cases hc : s.connect_result with
          | ok ts =>
              have hok : sub_ok s = true := by simp [sub_ok, hn, except_ok, hc]
              constructor
              · rw [(ih _ _).1]
                simp [hok, tools_of, hc]
              · rw [(ih _ _).2]
                simp [hok, dict_insert_key_ne_nil]
          | error e =>
              have hok : sub_ok s = false := by simp [sub_ok, hn, except_ok, hc]
              constructor
              · rw [(ih clients tools).1]
                simp [hok]
              · rw [(ih clients tools).2]
                simp [hok]

/-- C3: aggregator connect with at least one surviving and at least one
failing sub-connection raises nothing (the result is ok), the tool list is
the concatenation of the tools of exactly the surviving sub-connections,
the aggregate connected flag ends up true, and in general that flag is
true exactly when at least one sub-connection succeeded. -/
theorem multi_connect_mixed_outcome (servers : List SubServer)
    (h1 : ∃ s ∈ servers, sub_ok s = true)
    (h2 : ∃ s ∈ servers, sub_failed s = true) :
    ∃ r, multi_connect servers = .ok r ∧
      r.tools = ((servers.filter (fun s => sub_ok s)).map tools_of).flatten ∧
      r.is_connected = true ∧
      (r.is_connected = true ↔ ∃ s ∈ servers, sub_ok s = true) := by
  refine ⟨_, rfl, ?_, ?_, ?_⟩
  · rw [(multi_connect_go_spec servers [] []).1]
    simp
  · simp only [decide_eq_true_eq]
    rw [List.length_pos_iff_ne_nil]
    intro hnil
    rw [(multi_connect_go_spec servers [] []).2] at hnil
    obtain ⟨s, hs, hok⟩ := h1
    have := hnil.2 s hs
    simp_all
  · constructor
    · intro hc
      exact h1
    · intro hex
      simp only [decide_eq_true_eq]
      rw [List.length_pos_iff_ne_nil]
      intro hnil
      rw [(multi_connect_go_spec servers [] []).2] at hnil
      obtain ⟨s, hs, hok⟩ := hex
      have := hnil.2 s hs
      simp_all

/-- C3 witness: one surviving and one failing sub-server yield an ok
connect, the tools of the surviving server only, and a true connected
flag. -/
theorem multi_connect_mixed_outcome_witness :
    ∃ r, multi_connect
        [{ name := some "gmail", connect_result := .ok ["send", "read"] },
         { name := some "weather", connect_result := .error () }] = .ok r ∧
      r.tools = (([{ name := some "gmail", connect_result := .ok ["send", "read"] },
         { name := some "weather", connect_result := .error () }].filter
           (fun s => sub_ok s)).map tools_of).flatten ∧
      r.is_connected = true ∧
      (r.is_connected = true ↔ ∃ s ∈ [{ name := some "gmail", connect_result := .ok ["send", "read"] },
         { name := some "weather", connect_result := .error () }], sub_ok s = true) := by
  apply multi_connect_mixed_outcome
  · exact ⟨_, List.mem_cons_self _ _, by simp [sub_ok, sub_named, except_ok]⟩
  · refine ⟨{ name := some "weather", connect_result := .error () }, ?_, ?_⟩
    · simp
    · simp [sub_failed, sub_named, except_ok]

/-- C2 (amended): `validate_config` rejects a config whose transport-tag
required field is missing with a message naming that field, rejects an
http-family or websocket url whose scheme does not match the transport,
and accepts a stdio config that carries a command (of any value, emptiness
is not checked) and a list-valued args. -/
theorem validate_config_field_requirements (kvs : List (String × JValue)) :
    (client_type_of kvs = some "stdio" → lookupK kvs "command" = none →
      validate_config (.obj kvs) = some (false, requiresMsg "stdio" "command")) ∧
    (∀ c, client_type_of kvs = some "stdio" → lookupK kvs "command" = some c →
      lookupK kvs "args" = none →
      validate_config (.obj kvs) = some (false, requiresMsg "stdio" "args")) ∧
    (client_type_of kvs = some "sse" → lookupK kvs "url" = none →
      validate_config (.obj kvs) = some (false, requiresMsg "sse" "url")) ∧
    (client_type_of kvs = some "streamable_http" → lookupK kvs "url" = none →
      validate_config (.obj kvs) = some (false, requiresMsg "streamable_http" "url")) ∧
    (client_type_of kvs = some "websocket" → lookupK kvs "url" = none →
      validate_config (.obj kvs) = some (false, requiresMsg "websocket" "url")) ∧
    (∀ u, client_type_of kvs = some "streamable_http" →
      lookupK kvs "url" = some (.str u) →
      u.startsWith "http://" = false → u.startsWith "https://" = false →
      validate_config (.obj kvs) =
        some (false, q "url" ++ " must start with http:// or https://")) ∧
    (∀ u, client_type_of kvs = some "websocket" → lookupK kvs "url" = some (.str u) →
      u.startsWith "ws://" = false → u.startsWith "wss://" = false →
      validate_config (.obj kvs) =
        some (false, q "url" ++ " must start with ws:// or wss://")) ∧
    (∀ c xs, client_type_of kvs = some "stdio" → lookupK kvs "command" = some c →
      lookupK kvs "args" = some (.list xs) → validate_config (.obj kvs) = some (true, "")) := by
  refine ⟨?_, ?_, ?_, ?_, ?_, ?_, ?_, ?_⟩
  · intro ht hc
    simp [validate_config, ht, hc, supported_types]
  · intro c ht hc ha
    simp [validate_config, ht, hc, ha, supported_types]
  · intro ht hu
    simp [validate_config, ht, hu, supported_types]
  · intro ht hu
    simp [validate_config, ht, hu, supported_types]
  · intro ht hu
    simp [validate_config, ht, hu, supported_types]
  · intro u ht hu h1 h2
    simp [validate_config, ht, hu, h1, h2, supported_types]
  · intro u ht hu h1 h2
    simp [validate_config, ht, hu, h1, h2, supported_types]
  · intro c xs ht hc ha
    simp [validate_config, ht, hc, ha, supported_types]

/-- C2 witness: the two concrete examples of the claim — a bare sse config
is rejected naming url, and a well-formed stdio config is accepted. -/
theorem validate_config_field_requirements_witness :
    validate_config (.obj [("type", .str "sse")]) =
      some (false, "sse config requires " ++ q "url" ++ " field") ∧
    validate_config (.obj [("type", .str "stdio"), ("command", .str "echo"),
      ("args", .list [.str "hi"])]) = some (true, "") := by
  constructor
  · exact (validate_config_field_requirements [("type", .str "sse")]).2.2.1 rfl rfl
  · exact (validate_config_field_requirements
      [("type", .str "stdio"), ("command", .str "echo"), ("args", .list [.str "hi"])]).2.2.2.2.2.2.2
      (.str "echo") [.str "hi"] rfl rfl rfl

/-- C2 counterexample: the claim also requires a non-empty stdio command,
but `validate_config` only tests key presence — a config with an empty
command string is accepted. -/
theorem validate_config_empty_command_accepted :
    validate_config (.obj [("type", .str "stdio"), ("command", .str ""),
      ("args", .list [])]) = some (true, "") ∧
    Option.map Prod.fst (validate_config (.obj [("type", .str "stdio"),
      ("command", .str ""), ("args", .list [])])) ≠ some false := by
  have h : validate_config (.obj [("type", .str "stdio"), ("command", .str ""),
      ("args", .list [])]) = some (true, "") := by
    simp [validate_config, client_type_of, lookupK, supported_types, py_lower]
  exact ⟨h, by rw [h]; simp⟩

/-- C10: a config carrying no type key is treated as stdio by both
`validate_config` and `create_mcp_client`: the empty config is rejected
with the stdio command message (not as an unsupported transport), and a
typeless config with a command and a list-valued args validates and is
built as a stdio client. -/
theorem typeless_config_defaults_to_stdio (kvs : List (String × JValue))
    (ht : lookupK kvs "type" = none) :
    client_type_of kvs = some "stdio" ∧
    (lookupK kvs "command" = none →
      validate_config (.obj kvs) = some (false, requiresMsg "stdio" "command")) ∧
    (∀ c xs, lookupK kvs "command" = some c → lookupK kvs "args" = some (.list xs) →
      validate_config (.obj kvs) = some (true, "")) ∧
    create_mcp_client kvs = some (.ok .stdio) := by
  have hct : client_type_of kvs = some "stdio" := by
    simp [client_type_of, ht, py_lower]
  refine ⟨hct, ?_, ?_, ?_⟩
  · intro hc
    simp [validate_config, hct, hc, supported_types]
  · intro c xs hc ha
    simp [validate_config, hct, hc, ha, supported_types]
  · simp [create_mcp_client, hct]

/-- C10 witness: the empty config and a typeless stdio config, concretely. -/
theorem typeless_config_defaults_to_stdio_witness :
    validate_config (.obj []) =
      some (false, "stdio config requires " ++ q "command" ++ " field") ∧
    validate_config (.obj [("command", .str "echo"), ("args", .list [.str "hi"])]) =
      some (true, "") ∧
    create_mcp_client [("command", .str "echo"), ("args", .list [.str "hi"])] =
      some (.ok .stdio) := by
  refine ⟨?_, ?_, ?_⟩
  · exact (typeless_config_defaults_to_stdio [] rfl).2.1 rfl
  · exact (typeless_config_defaults_to_stdio
      [("command", .str "echo"), ("args", .list [.str "hi"])] rfl).2.2.1
      (.str "echo") [.str "hi"] rfl rfl
  · exact (typeless_config_defaults_to_stdio
      [("command", .str "echo"), ("args", .list [.str "hi"])] rfl).2.2.2

theorem validate_servers_ok_iff : ∀ (xs : List JValue) (i : ℕ),
    (∃ m, validate_servers i xs = some (true, m)) ↔
      ∀ x ∈ xs, ∃ skvs, x = .obj skvs ∧ (lookupK skvs "name").isSome ∧
        config_accepted x := by
  intro xs
  induction xs with
  | nil => intro i; simp [validate_servers]
  | cons x rest ih =>
      intro i
      cases x with
      | obj skvs =>
          rw [validate_servers]
          by_cases hn : (lookupK skvs "name").isNone
          · rw [if_pos hn]
            constructor
            · rintro ⟨m, hm⟩
              simp at hm
            · intro hall
              exfalso
              obtain ⟨skvs', he, hsome, -⟩ := hall (.obj skvs) (by simp)
              cases he
              simp [Option.isNone_iff_eq_none] at hn
              simp [hn] at hsome
          · rw [if_neg hn]
            cases hv : validate_config (.obj skvs) with
            | none =>
                constructor
                · rintro ⟨m, hm⟩
                  simp at hm
                · intro hall
                  exfalso
                  obtain ⟨skvs', he, -, m, hacc⟩ := hall (.obj skvs) (by simp)
                  cases he
                  rw [hv] at hacc
                  exact Option.noConfusion hacc
            | some p =>
                rcases p with ⟨ok, msg⟩
                cases ok with
                | true =>
                    simp only []
                    rw [ih (i + 1)]
                    constructor
                    · intro hall
                      intro y hy
                      rw [List.mem_cons] at hy
                      rcases hy with hy | hy
                      · subst hy
                        refine ⟨skvs, rfl, ?_, ⟨msg, hv⟩⟩
                        cases hx : lookupK skvs "name" with
                        | none => exact absurd (by simp [hx]) hn
                        | some v => simp
                      · exact hall y hy
                    · intro hall
                      intro y hy
                      exact hall y (List.mem_cons_of_mem _ hy)
                | false =>
                    constructor
                    · rintro ⟨m, hm⟩
                      simp at hm
                    · intro hall
                      exfalso
                      obtain ⟨skvs', he, -, m, hacc⟩ := hall (.obj skvs) (by simp)
                      cases he
                      rw [hv] at hacc
                      simp at hacc
      | null =>
          constructor
          · rintro ⟨m, hm⟩
            simp [validate_servers] at hm
          · intro hall
            obtain ⟨skvs', he, -⟩ := hall .null (by simp)
            exact JValue.noConfusion he
      | bool b =>
          constructor
          · rintro ⟨m, hm⟩
            simp [validate_servers] at hm
          · intro hall
            obtain ⟨skvs', he, -⟩ := hall (.bool b) (by simp)
            exact JValue.noConfusion he
      | int n =>
          constructor
          · rintro ⟨m, hm⟩
            simp [validate_servers] at hm
          · intro hall
            obtain ⟨skvs', he, -⟩ := hall (.int n) (by simp)
            exact JValue.noConfusion he
      | float x =>
          constructor
          · rintro ⟨m, hm⟩
            simp [validate_servers] at hm
          · intro hall
            obtain ⟨skvs', he, -⟩ := hall (.float x) (by simp)
            exact JValue.noConfusion he
      | str s =>
          constructor
          · rintro ⟨m, hm⟩
            simp [validate_servers] at hm
          · intro hall
            obtain ⟨skvs', he, -⟩ := hall (.str s) (by simp)
            exact JValue.noConfusion he
      | list ys =>
          constructor
          · rintro ⟨m, hm⟩
            simp [validate_servers] at hm
          · intro hall
            obtain ⟨skvs', he, -⟩ := hall (.list ys) (by simp)
            exact JValue.noConfusion he

/-- C6 (amended): a multi config is accepted exactly when `servers` is
present as a non-empty list whose every element is a dict carrying a
`name` key and recursively passing validation; sub-server names are NOT
required to be unique. -/
theorem validate_config_multi_characterization (kvs : List (String × JValue))
    (ht : client_type_of kvs = some "multi") :
    config_accepted (.obj kvs) ↔
      ∃ xs, lookupK kvs "servers" = some (.list xs) ∧ xs ≠ [] ∧
        ∀ x ∈ xs, ∃ skvs, x = .obj skvs ∧ (lookupK skvs "name").isSome ∧
          config_accepted x := by
  unfold config_accepted
  simp only [validate_config, ht]
  simp [supported_types]
  split
  next heq =>
    simp [heq]
  next xs heq =>
    by_cases he : xs.isEmpty
    · rw [if_pos he]
      constructor
      · rintro ⟨m, hm⟩
        simp at hm
      · rintro ⟨xs', hxs', hne', -⟩
        rw [heq] at hxs'
        obtain rfl : xs = xs' := by simpa using hxs'
        exact (hne' (by simpa using he)).elim
    · rw [if_neg he]
      rw [validate_servers_ok_iff xs 0]
      constructor
      · intro hall
        exact ⟨xs, heq, by simpa using he, hall⟩
      · rintro ⟨xs', hxs', -, hall⟩
        rw [heq] at hxs'
        obtain rfl : xs = xs' := by simpa using hxs'
        exact hall
  next v hne heq =>
    constructor
    · rintro ⟨m, hm⟩
      simp at hm
    · rintro ⟨xs', hxs', -, -⟩
      rw [heq] at hxs'
      rw [Option.some_inj] at hxs'
      exact (hne xs' hxs').elim

/-- C6 witness: the characterization applied to a concrete one-server
multi config. -/
theorem validate_config_multi_characterization_witness :
    config_accepted (.obj [("type", .str "multi"),
        ("servers", .list [.obj [("name", .str "a"), ("command", .str "c"),
          ("args", .list [])]])]) ↔
      ∃ xs, lookupK [("type", JValue.str "multi"),
          ("servers", .list [.obj [("name", .str "a"), ("command", .str "c"),
            ("args", .list [])]])] "servers" = some (.list xs) ∧ xs ≠ [] ∧
        ∀ x ∈ xs, ∃ skvs, x = .obj skvs ∧ (lookupK skvs "name").isSome ∧
          config_accepted x :=
  validate_config_multi_characterization _ rfl

/-- C6 counterexample: a multi config whose two sub-servers share the name
"a" is accepted by `validate_config`, although the claim requires
uniqueness of sub-server names. -/
theorem validate_config_multi_duplicate_names_accepted :
    validate_config (.obj [("type", .str "multi"),
      ("servers", .list [
        .obj [("name", .str "a"), ("command", .str "c"), ("args", .list [])],
        .obj [("name", .str "a"), ("command", .str "c"), ("args", .list [])]])]) =
      some (true, "") ∧
    Option.map Prod.fst (validate_config (.obj [("type", .str "multi"),
      ("servers", .list [
        .obj [("name", .str "a"), ("command", .str "c"), ("args", .list [])],
        .obj [("name", .str "a"), ("command", .str "c"), ("args", .list [])]])])) ≠
      some false := by
  have h : validate_config (.obj [("type", .str "multi"),
      ("servers", .list [
        .obj [("name", .str "a"), ("command", .str "c"), ("args", .list [])],
        .obj [("name", .str "a"), ("command", .str "c"), ("args", .list [])]])]) =
      some (true, "") := by
    simp [validate_config, client_type_of, lookupK, supported_types, py_lower]
    split
    next heq => simp [lookupK] at heq
    next xs heq =>
      simp [lookupK] at heq
      subst heq
      simp [validate_servers, validate_config, client_type_of, lookupK,
        supported_types, py_lower]
    next val hne heq =>
      simp [lookupK] at heq
      exact (hne _ heq.symm).elim
  exact ⟨h, by rw [h]; simp⟩

theorem get_default_for_type_falsy (t : JValue) :
    jTruthy (get_default_for_type t) = false := by
  unfold get_default_for_type
  split <;> rfl

/-- C5 (amended): in `MCPTool.to_langchain_tool` the default of an
optional property is computed purely from its declared JSON type — two
property schemas with the same type get the same default whatever their
enum — and the validated kwargs forwarded to `execute` carry exactly that
generic default for an optional property the caller omitted; in
`ImprovedMCPTool._schema_field_to_pydantic`, because every generic type
default is falsy, an optional enum property without an explicit default
instead receives the first enum member. -/
theorem schema_optional_defaults :
    (∀ ps ps' : List (String × JValue), json_type_of ps = json_type_of ps' →
      base_optional_default ps = base_optional_default ps') ∧
    (∀ (nm : String) (ps : List (String × JValue))
        (rest : List (String × List (String × JValue)))
        (required : List String) (args : List (String × JValue)),
      lookupK args nm = none → required.contains nm = false →
      fill_args ((nm, ps) :: rest) required args =
        (fill_args rest required args).map
          (fun r => (nm, get_default_value (json_type_of ps)) :: r)) ∧
    (∀ (ps : List (String × JValue)) (v : JValue) (vs : List JValue),
      lookupK ps "default" = none → lookupK ps "enum" = some (.list (v :: vs)) →
      improved_default ps false = v) := by
  refine ⟨?_, ?_, ?_⟩
  · intro ps ps' h
    simp [base_optional_default, h]
  · intro nm ps rest required args hmiss hopt
    have hopt' : nm ∉ required := by simpa using hopt
    simp [fill_args, hmiss, hopt', base_optional_default]
  · intro ps v vs hd he
    simp [improved_default, hd, he, get_default_for_type_falsy]

/-- C5 witness: for the optional property of the claim — integer-typed
with enum [1,2,3] and no explicit default — the base translator fills an
omitted argument with the generic integer default 0, while the improved
adapter defaults it to the first enum member 1. -/
theorem schema_optional_defaults_witness :
    fill_args [("priority", [("type", JValue.str "integer"),
        ("enum", JValue.list [.int 1, .int 2, .int 3])])] [] [] =
      .ok [("priority", JValue.int 0)] ∧
    improved_default [("type", JValue.str "integer"),
        ("enum", JValue.list [.int 1, .int 2, .int 3])] false = JValue.int 1 := by
  constructor
  · rw [schema_optional_defaults.2.1 "priority"
      [("type", JValue.str "integer"), ("enum", JValue.list [.int 1, .int 2, .int 3])]
      [] [] [] rfl rfl]
    rfl
  · exact schema_optional_defaults.2.2
      [("type", JValue.str "integer"), ("enum", JValue.list [.int 1, .int 2, .int 3])]
      (.int 1) [.int 2, .int 3] rfl rfl

/-- C5 counterexample: for the optional integer property with enum
[1,2,3] and no explicit default, the improved adapter assigns 1 — the
first enum member — not the generic integer default 0 the claim states
for the schema translator. -/
theorem improved_adapter_enum_default_counterexample :
    improved_default [("type", JValue.str "integer"),
        ("enum", JValue.list [.int 1, .int 2, .int 3])] false = JValue.int 1 ∧
    get_default_value (JValue.str "integer") = JValue.int 0 ∧
    improved_default [("type", JValue.str "integer"),
        ("enum", JValue.list [.int 1, .int 2, .int 3])] false ≠
      get_default_value (JValue.str "integer") := by
  refine ⟨rfl, rfl, ?_⟩
  intro h
  rw [show improved_default [("type", JValue.str "integer"),
        ("enum", JValue.list [.int 1, .int 2, .int 3])] false = JValue.int 1 from rfl,
      show get_default_value (JValue.str "integer") = JValue.int 0 from rfl] at h
  exact absurd (JValue.int.inj h) (by decide)

/-- C7: the loader entry loop accumulates exactly the tools of the
entries that succeeded — a raising entry is skipped without aborting the
rest — and `_load_mcp_client_tool` returns an empty list instead of
raising when the descriptor file is missing, when the merged config fails
validation, when the inline config is empty, and when the create-or-connect
step raises after retry exhaustion. -/
theorem loader_failure_isolation :
    (∀ entries : List ToolEntry,
      load_tools_entries entries = (entries.map entry_tools).flatten) ∧
    (∀ (gs : List (String × JValue)) (cr : Except Unit (List String)),
      load_mcp_client_tool .file_missing gs cr = .ok []) ∧
    (∀ (gs kvs : List (String × JValue)) (cr : Except Unit (List String)) (m : String),
      validate_config (.obj (merge_globals kvs gs)) = some (false, m) →
      load_mcp_client_tool (.file_config kvs) gs cr = .ok []) ∧
    (∀ (gs kvs : List (String × JValue)) (m : String),
      validate_config (.obj (merge_globals kvs gs)) = some (true, m) →
      load_mcp_client_tool (.file_config kvs) gs (.error ()) = .ok []) ∧
    (∀ (gs : List (String × JValue)) (cr : Except Unit (List String)),
      load_mcp_client_tool (.inline_config []) gs cr = .ok []) := by
  refine ⟨?_, ?_, ?_, ?_, ?_⟩
  · intro entries
    induction entries with
    | nil => simp [load_tools_entries]
    | cons e rest ih =>
        rcases e with ⟨en, oc⟩
        cases en <;> cases oc <;> simp [load_tools_entries, entry_tools, ih]
  · intro gs cr
    rfl
  · intro gs kvs cr m hv
    simp [load_mcp_client_tool, hv]
  · intro gs kvs m hv
    simp [load_mcp_client_tool, hv]
  · intro gs cr
    rfl

/-- C7 witness: a concrete mix — one loading entry succeeds with two
tools, one raises, one is disabled — yields exactly the successful tools;
and a config failing validation makes the mcp-client loader return an
empty list without raising. -/
theorem loader_failure_isolation_witness :
    load_tools_entries
        [{ enabled := true, outcome := .tools ["a", "b"] },
         { enabled := true, outcome := .raised },
         { enabled := false, outcome := .tools ["c"] }] = ["a", "b"] ∧
    load_mcp_client_tool (.file_config [("type", .str "sse")]) []
        (.ok ["x"]) = .ok [] := by
  constructor
  · rw [loader_failure_isolation.1]
    rfl
  · exact loader_failure_isolation.2.2.1 [] [("type", .str "sse")] (.ok ["x"])
      (requiresMsg "sse" "url")
      (by simp [validate_config, client_type_of, lookupK, supported_types,
        py_lower, merge_globals])
